import Mathlib

/-!
Verification development for the `wedos_api` Python client
(`src/wedos_api/api.py`, `src/wedos_api/models.py`).

The client is shallowly embedded: pure helpers become Lean functions,
the HTTP round-trip becomes an explicit `Except`-valued network input,
mutable client state (`self.__user`, `self.__key`, `self.__test_mode`)
becomes an explicit `ClientState` threaded through each operation, and
raised exceptions become `Except` errors.  32-bit machine arithmetic in
SHA-1 is modelled with `Nat` reduced `% 2^32`.
-/

namespace WedosApi

/-! ### SHA-1 over byte lists (hashlib.sha1, as used by `WAPI.__get_auth`) -/

/-- 2^32, the modulus of 32-bit machine arithmetic. -/
def w32 : Nat := 4294967296

/-- Left-rotate a 32-bit word by `n` bits. -/
def rotl (n x : Nat) : Nat := ((x <<< n) ||| (x >>> (32 - n))) % w32

/-- Big-endian byte representation of `v` using exactly `k` bytes. -/
def toBytesBE : Nat → Nat → List Nat
  | 0, _ => []
  | k + 1, v => toBytesBE k (v / 256) ++ [v % 256]

/-- SHA-1 padding: append 0x80, zero bytes up to 56 mod 64, then the
bit length as an 8-byte big-endian integer. -/
def sha1Pad (msg : List Nat) : List Nat :=
  let padZeros := (119 - msg.length % 64) % 64
  msg ++ [128] ++ List.replicate padZeros 0 ++ toBytesBE 8 (msg.length * 8)

/-- Group a byte list into 32-bit big-endian words. -/
def bytesToWords (bs : List Nat) : List Nat :=
  (List.range (bs.length / 4)).map fun i =>
    ((bs.getD (4 * i) 0 * 256 + bs.getD (4 * i + 1) 0) * 256 +
      bs.getD (4 * i + 2) 0) * 256 + bs.getD (4 * i + 3) 0

/-- Split a word list into 16-word blocks. -/
def wordBlocks (ws : List Nat) : List (List Nat) :=
  (List.range (ws.length / 16)).map fun j =>
    (List.range 16).map fun i => ws.getD (16 * j + i) 0

/-- Extend the 16 message words of one block to the 80-word schedule. -/
def sha1Extend (w : Array Nat) : Array Nat :=
  (List.range 64).foldl
    (fun w i =>
      w.push (rotl 1 ((w.getD (i + 13) 0) ^^^ (w.getD (i + 8) 0) ^^^
                      (w.getD (i + 2) 0) ^^^ (w.getD i 0))))
    w

/-- The five 32-bit chaining words of SHA-1. -/
structure Sha1State where
  a : Nat
  b : Nat
  c : Nat
  d : Nat
  e : Nat
deriving Repr, DecidableEq

/-- SHA-1 initial chaining value. -/
def sha1Init : Sha1State :=
  ⟨1732584193, 4023233417, 2562383102, 271733878, 3285377520⟩

/-- The SHA-1 round function `f_t`. -/
def sha1F (t b c d : Nat) : Nat :=
  if t < 20 then (b &&& c) ||| ((b ^^^ (w32 - 1)) &&& d)
  else if t < 40 then b ^^^ c ^^^ d
  else if t < 60 then (b &&& c) ||| (b &&& d) ||| (c &&& d)
  else b ^^^ c ^^^ d

/-- The SHA-1 round constant `K_t`. -/
def sha1K (t : Nat) : Nat :=
  if t < 20 then 1518500249
  else if t < 40 then 1859775393
  else if t < 60 then 2400959708
  else 3395469782

/-- One SHA-1 compression round. -/
def sha1Round (w : Array Nat) (s : Sha1State) (t : Nat) : Sha1State :=
  let temp := (rotl 5 s.a + sha1F t s.b s.c s.d + s.e + sha1K t + w.getD t 0) % w32
  ⟨temp, s.a, rotl 30 s.b, s.c, s.d⟩

/-- Process one 16-word block, updating the chaining value. -/
def sha1Block (h : Sha1State) (block : List Nat) : Sha1State :=
  let w := sha1Extend (Array.mk block)
  let s := (List.range 80).foldl (sha1Round w) h
  ⟨(h.a + s.a) % w32, (h.b + s.b) % w32, (h.c + s.c) % w32,
   (h.d + s.d) % w32, (h.e + s.e) % w32⟩

/-- SHA-1 of a byte list, as the five-word chaining value. -/
def sha1Words (msg : List Nat) : Sha1State :=
  (wordBlocks (bytesToWords (sha1Pad msg))).foldl sha1Block sha1Init

/-- Lowercase hexadecimal digit. -/
def hexDigit (n : Nat) : Char :=
  "0123456789abcdef".data.getD n '0'

/-- Lowercase hexadecimal rendering of `v`, zero-padded to `k` digits. -/
def toHex : Nat → Nat → List Char
  | 0, _ => []
  | k + 1, v => toHex k (v / 16) ++ [hexDigit (v % 16)]

/-- `hashlib.sha1(msg).hexdigest()`: the 40-character lowercase hex digest. -/
def sha1Hex (msg : List Nat) : String :=
  ⟨toHex 8 (sha1Words msg).a ++ toHex 8 (sha1Words msg).b ++
   toHex 8 (sha1Words msg).c ++ toHex 8 (sha1Words msg).d ++
   toHex 8 (sha1Words msg).e⟩

/-! ### UTF-8 encoding (`str.encode('utf8')`) -/

/-- UTF-8 encoding of a single code point. -/
def utf8Char (c : Char) : List Nat :=
  let v := c.toNat
  if v < 128 then [v]
  else if v < 2048 then [192 ||| (v >>> 6), 128 ||| (v &&& 63)]
  else if v < 65536 then
    [224 ||| (v >>> 12), 128 ||| ((v >>> 6) &&& 63), 128 ||| (v &&& 63)]
  else
    [240 ||| (v >>> 18), 128 ||| ((v >>> 12) &&& 63),
     128 ||| ((v >>> 6) &&& 63), 128 ||| (v &&& 63)]

/-- `s.encode('utf8')` as a byte list. -/
def utf8 (s : String) : List Nat := s.data.flatMap utf8Char

/-! ### `WAPI.__get_auth` -/

/-- `WAPI.__get_auth`:
`sha1((user + sha1(key.encode('utf8')).hexdigest() + hour).encode('utf8')).hexdigest()`,
where `hour` stands for `datetime.now().strftime('%H')`, supplied as an
explicit input since wall-clock time is external. -/
def getAuth (user key hour : String) : String :=
  sha1Hex (utf8 (user ++ sha1Hex (utf8 key) ++ hour))

/-! ### datetime with `WAPI.date_format = '%Y-%m-%d %H:%M:%S'` -/

/-- A naive `datetime.datetime` value (date and time of day). -/
structure DateTime where
  year : Nat
  month : Nat
  day : Nat
  hour : Nat
  minute : Nat
  second : Nat
deriving Repr, DecidableEq

/-- Gregorian leap-year rule, as used by `datetime`. -/
def isLeapYear (y : Nat) : Bool :=
  (y % 4 == 0 && y % 100 != 0) || y % 400 == 0

/-- Number of days in month `m` of year `y`. -/
def daysInMonth (y m : Nat) : Nat :=
  if m = 2 then (if isLeapYear y then 29 else 28)
  else if m = 4 ∨ m = 6 ∨ m = 9 ∨ m = 11 then 30
  else 31

/-- Read a non-empty all-digit character list as a number. -/
def digitsToNat? (cs : List Char) : Option Nat :=
  if cs ≠ [] ∧ cs.all Char.isDigit then
    some (cs.foldl (fun a c => a * 10 + (c.toNat - 48)) 0)
  else none

/-- Split a character list at every occurrence of `sep`. -/
def splitSep (sep : Char) : List Char → List (List Char)
  | [] => [[]]
  | c :: rest =>
    let r := splitSep sep rest
    if c = sep then [] :: r
    else
      match r with
      | h :: t => (c :: h) :: t
      | [] => [[c]]

/-- A numeric field of `strptime`: between `lo` and `hi` digits wide,
value at most `max`, read from `cs`. -/
def timeField? (lo hi mx : Nat) (cs : List Char) : Option Nat := do
  let v ← digitsToNat? cs
  if lo ≤ cs.length ∧ cs.length ≤ hi ∧ v ≤ mx then some v else none

/-- `datetime.strptime(s, '%Y-%m-%d %H:%M:%S')`: `%Y` is exactly four
digits; the other fields accept one or two digits within their ranges;
the resulting date must be a valid calendar date.  Failure models the
`ValueError` that `strptime` raises. -/
def strptimeDateFormat (s : String) : Option DateTime :=
  match splitSep ' ' s.data with
  | [datePart, timePart] =>
    (match splitSep '-' datePart, splitSep ':' timePart with
     | [ys, ms, ds], [hs, mins, ss] => do
       let y ← timeField? 4 4 9999 ys
       let mo ← timeField? 1 2 12 ms
       let d ← timeField? 1 2 31 ds
       let h ← timeField? 1 2 23 hs
       let mi ← timeField? 1 2 59 mins
       let sec ← timeField? 1 2 59 ss
       if 1 ≤ y ∧ 1 ≤ mo ∧ 1 ≤ d ∧ d ≤ daysInMonth y mo then
         some ⟨y, mo, d, h, mi, sec⟩
       else none
     | _, _ => none)
  | _ => none

/-- Decimal rendering of `v`, zero-padded on the left to `k` digits. -/
def padNum (k v : Nat) : List Char :=
  let ds := Nat.toDigits 10 v
  List.replicate (k - ds.length) '0' ++ ds

/-- `d.strftime('%Y-%m-%d %H:%M:%S')`. -/
def strftimeDateFormat (d : DateTime) : String :=
  ⟨padNum 4 d.year ++ '-' :: padNum 2 d.month ++ '-' :: padNum 2 d.day ++
   ' ' :: padNum 2 d.hour ++ ':' :: padNum 2 d.minute ++ ':' :: padNum 2 d.second⟩

/-! ### Enums from `models.py` -/

/-- `WAPIDomainStatus` (closed enum; the only member is `ACTIVE`). -/
inductive WAPIDomainStatus where
  | ACTIVE
deriving Repr, DecidableEq

/-- The `.value` of a `WAPIDomainStatus` member. -/
def WAPIDomainStatus.value : WAPIDomainStatus → String
  | .ACTIVE => "ACTIVE"

/-- `WAPIDomainStatus.__members__` as an ordered name/member list. -/
def domainStatusMembers : List (String × WAPIDomainStatus) :=
  [("ACTIVE", .ACTIVE)]

/-- `WAPIDomainRecordType` (closed enum: A, AAAA, MX, SSHFP, TXT). -/
inductive WAPIDomainRecordType where
  | A
  | AAAA
  | MX
  | SSHFP
  | TXT
deriving Repr, DecidableEq

/-- The `.value` of a `WAPIDomainRecordType` member. -/
def WAPIDomainRecordType.value : WAPIDomainRecordType → String
  | .A => "A"
  | .AAAA => "AAAA"
  | .MX => "MX"
  | .SSHFP => "SSHFP"
  | .TXT => "TXT"

/-- `WAPIDomainRecordType.__members__` as an ordered name/member list. -/
def recordTypeMembers : List (String × WAPIDomainRecordType) :=
  [("A", .A), ("AAAA", .AAAA), ("MX", .MX), ("SSHFP", .SSHFP), ("TXT", .TXT)]

/-- `str.upper()`, mapping each character to uppercase (the enum names
being matched are ASCII). -/
def pyUpper (s : String) : String := ⟨s.data.map Char.toUpper⟩

/-- `WAPIDomain.__str_to_record_type`: uppercase the input, scan the
members in order, return the first whose name matches, otherwise raise
`WAPIError` (modelled as the error message). -/
def strToRecordType (s : String) : Except String WAPIDomainRecordType :=
  let u := pyUpper s
  match recordTypeMembers.lookup u with
  | some t => .ok t
  | none => .error ("Unknown record type " ++ u)

/-- `WAPI.__str_to_domain_status`: same scheme over `WAPIDomainStatus`
(the source reuses the record-type wording in its error message). -/
def strToDomainStatus (s : String) : Except String WAPIDomainStatus :=
  let u := pyUpper s
  match domainStatusMembers.lookup u with
  | some t => .ok t
  | none => .error ("Unknown record type " ++ u)

/-! ### Row decoding (`WAPIDomain.__row_dict_to_row`, `records_as_dict`) -/

/-- One row of the `dns-rows-list` payload, with the string-typed wire
fields the source reads (`ID`, `name`, `ttl`, `rdtype`, `rdata`,
`changed_date`, `author_comment`). -/
structure RowDict where
  ID : String
  name : String
  ttl : String
  rdtype : String
  rdata : String
  changed_date : String
  author_comment : String
deriving Repr, DecidableEq

/-- `WAPIDomainRecord` from `models.py`. -/
structure WAPIDomainRecord where
  id : Int
  name : String
  ttl : Int
  record_type : WAPIDomainRecordType
  content : String
  changed : DateTime
  author_comment : String
deriving Repr, DecidableEq

/-- Python's `int(s)`: optional surrounding spaces, optional sign,
then decimal digits; anything else raises `ValueError` (`none`). -/
def pyInt? (s : String) : Option Int :=
  let cs := (((s.data.dropWhile (· = ' ')).reverse.dropWhile (· = ' ')).reverse)
  match cs with
  | '-' :: rest => (digitsToNat? rest).map (fun n => -(n : Int))
  | '+' :: rest => (digitsToNat? rest).map (fun n => (n : Int))
  | rest => (digitsToNat? rest).map (fun n => (n : Int))

/-- The exceptions a row decode can raise: a `WAPIError` (unknown
record type), a `ValueError` from `int`, or a `ValueError` from
`datetime.strptime`. -/
inductive DecodeError where
  | wapi (msg : String)
  | valueError
  | strptimeError
deriving Repr, DecidableEq

/-- `WAPIDomain.__row_dict_to_row`: parse `ID` and `ttl` as integers,
map `rdtype` through the record-type enum, keep `name`/`rdata` as is,
parse `changed_date` with the fixed date format. -/
def rowDictToRow (r : RowDict) : Except DecodeError WAPIDomainRecord := do
  let id ← match pyInt? r.ID with
    | some n => Except.ok n
    | none => Except.error DecodeError.valueError
  let ttl ← match pyInt? r.ttl with
    | some n => Except.ok n
    | none => Except.error DecodeError.valueError
  let rt ← match strToRecordType r.rdtype with
    | .ok t => Except.ok t
    | .error m => Except.error (DecodeError.wapi m)
  let ch ← match strptimeDateFormat r.changed_date with
    | some d => Except.ok d
    | none => Except.error DecodeError.strptimeError
  .ok { id := id, name := r.name, ttl := ttl, record_type := rt,
        content := r.rdata, changed := ch, author_comment := r.author_comment }

/-- The dictionary form yielded by `records_as_dict`: `_asdict()` with
`record_type` replaced by its `.value` and `changed` rendered with
`strftime(WAPI.date_format)`. -/
structure RecordDict where
  id : Int
  name : String
  ttl : Int
  record_type : String
  content : String
  changed : String
  author_comment : String
deriving Repr, DecidableEq

/-- The per-record body of `WAPIDomain.records_as_dict`. -/
def recordToDict (x : WAPIDomainRecord) : RecordDict :=
  { id := x.id, name := x.name, ttl := x.ttl,
    record_type := x.record_type.value, content := x.content,
    changed := strftimeDateFormat x.changed,
    author_comment := x.author_comment }

/-! ### Client state and request/response envelopes

The Python object state (`self.__user`, `self.__key`,
`self.__test_mode`) is threaded explicitly; every operation returns
`(result, state after the call, wire requests sent)`.  The HTTP
round-trip is an explicit `net` input: either a transport failure
(exceptions from `requests`, propagated unchanged) or the decoded
`response` object. -/

/-- The fields `WAPI.__init__` stores on the client. -/
structure ClientState where
  user : String
  key : String
  test_mode : Bool
deriving Repr, DecidableEq

/-- `WAPI.__init__(user, key)`: store the credentials; test mode is
initially off. -/
def initClient (user key : String) : ClientState :=
  { user := user, key := key, test_mode := false }

/-- `WAPI.set_test_mode(enabled)`. -/
def setTestMode (st : ClientState) (enabled : Bool) : ClientState :=
  { st with test_mode := enabled }

/-- A value of a request `data` dictionary (strings or integers). -/
inductive ReqVal where
  | s (v : String)
  | n (v : Int)
deriving Repr, DecidableEq

/-- A request `data` dictionary, as an ordered key/value list. -/
abbrev ReqData := List (String × ReqVal)

/-- The `WAPIRequest` named tuple from `models.py`. -/
structure WAPIRequest (α : Type) where
  user : String
  auth : String
  command : String
  command_id : Option String
  data : Option α
  test : Bool
deriving Repr, DecidableEq

/-- The JSON object actually POSTed as the `request` field:
`{command, auth, user, test: 0|1, data, clTRID}`. -/
structure WireRequest (α : Type) where
  command : String
  auth : String
  user : String
  test : Nat
  data : Option α
  clTRID : String
deriving Repr, DecidableEq

/-- The decoded `response` object of the server reply.  Fields the
source reads with `resp[...]` are required; fields read with
`resp.get(...)` (`code`, `data`, `test`) are optional. -/
structure RespEnvelope (α : Type) where
  code : Option Int
  result : String
  timestamp : Int
  clTRID : String
  svTRID : String
  command : String
  data : Option α
  test : Option Int
deriving Repr, DecidableEq

/-- The `WAPIResponse` named tuple from `models.py`. -/
structure WAPIResponse (α : Type) where
  code : Int
  result : String
  timestamp : Int
  command_id : String
  server_command_id : String
  command : String
  data : Option α
  test : Bool
deriving Repr, DecidableEq

/-- A network-level failure from the HTTP library, propagated
unchanged by the client. -/
structure TransportError where
  msg : String
deriving Repr, DecidableEq

/-- The exceptions a client operation can raise. -/
inductive WAPIFailure (α : Type) where
  | transport (e : TransportError)
  | badResponse (raw : RespEnvelope α)
  | decodeError (e : DecodeError)
deriving Repr, DecidableEq

/-- `str(resp.get('code', '3000'))`: the status code coerced to a
string, with `'3000'` substituted when the field is missing. -/
def codeStr (code : Option Int) : String :=
  match code with
  | some c => toString c
  | none => "3000"

/-- `s.startswith(t)` over the characters of the two strings. -/
def pyStartsWith (s t : String) : Bool := t.data.isPrefixOf s.data

/-- The response-classification step of `WAPI.make_request`: when the
code string starts with `"1"` build a `WAPIResponse`, otherwise raise
`WAPIError` carrying the raw decoded response.  On the success branch
the `code` field is necessarily present (a missing code reads as
`"3000"`), so `getD` is an arbitrary total completion there. -/
def makeRequestCore {α : Type} (resp : RespEnvelope α) :
    Except (WAPIFailure α) (WAPIResponse α) :=
  if pyStartsWith (codeStr resp.code) "1" then
    .ok { code := resp.code.getD 0,
          result := resp.result, timestamp := resp.timestamp,
          command_id := resp.clTRID, server_command_id := resp.svTRID,
          command := resp.command, data := resp.data,
          test := resp.test.getD 0 == 1 }
  else .error (.badResponse resp)

/-- `WAPI.make_request(command, data, command_id)`.  Builds the
`WAPIRequest`, serializes the wire JSON object — note the source fills
its `clTRID` field with `request.command`, not `request.command_id` —
and classifies the reply.  `hour` stands for the client clock reading
`datetime.now().strftime('%H')`. -/
def makeRequest {α : Type} (st : ClientState) (hour : String)
    (command : String) (data : Option ReqData) (command_id : Option String)
    (net : Except TransportError (RespEnvelope α)) :
    Except (WAPIFailure α) (WAPIResponse α) × ClientState × List (WireRequest ReqData) :=
  let request : WAPIRequest ReqData :=
    { command := command, auth := getAuth st.user st.key hour,
      user := st.user, test := st.test_mode, data := data,
      command_id := command_id }
  let wire : WireRequest ReqData :=
    { command := request.command, auth := request.auth, user := request.user,
      test := if request.test then 1 else 0, data := request.data,
      clTRID := request.command }
  ((match net with
    | .error e => .error (.transport e)
    | .ok resp => makeRequestCore resp),
   st, [wire])

/-- `WAPI.ping()`: `make_request('ping')`, `True` on success, `False`
on `WAPIError`; transport failures are not caught. -/
def ping {α : Type} (st : ClientState) (hour : String)
    (net : Except TransportError (RespEnvelope α)) :
    Except TransportError Bool × ClientState × List (WireRequest ReqData) :=
  let (r, st2, reqs) := makeRequest st hour "ping" none none net
  ((match r with
    | .ok _ => .ok true
    | .error (.transport e) => .error e
    | .error _ => .ok false),
   st2, reqs)

/-- A `WAPIDomain` handle: the domain name plus the optional
primary/status fields its constructor stores. -/
structure WAPIDomainHandle where
  domain : String
  is_primary : Option Bool
  status : Option WAPIDomainStatus
deriving Repr, DecidableEq

/-- The `WAPIDomain.domain_name` property. -/
def domainName (d : WAPIDomainHandle) : String := d.domain

/-- `WAPI.open_domain(domain)`: constructs `WAPIDomain(domain, self)`
— no request is sent and the client state is untouched. -/
def openDomain (st : ClientState) (domain : String) :
    WAPIDomainHandle × ClientState × List (WireRequest ReqData) :=
  ({ domain := domain, is_primary := none, status := none }, st, [])

/-- The `data` payload of a `dns-domains-list` reply: the value of its
`domain` key, a dictionary of per-domain entries. -/
structure DomainEntry where
  name : String
  type : String
  status : String
deriving Repr, DecidableEq

/-- The decoded `data` dictionary of `dns-domains-list`. -/
structure DomainsData where
  domain : List (String × DomainEntry)
deriving Repr, DecidableEq

/-- `WAPI.domains`: list the domains; absent data or an empty `domain`
dictionary yields `[]`; each entry becomes a `WAPIDomain` with
`is_primary` from `type == 'primary'` and the decoded status. -/
def domains (st : ClientState) (hour : String)
    (net : Except TransportError (RespEnvelope DomainsData)) :
    Except (WAPIFailure DomainsData) (List WAPIDomainHandle) × ClientState ×
      List (WireRequest ReqData) :=
  let (r, st2, reqs) := makeRequest st hour "dns-domains-list" none none net
  ((do
     let resp ← r
     match resp.data with
     | none => pure []
     | some dd =>
       if dd.domain.isEmpty then pure []
       else dd.domain.mapM fun p =>
         match strToDomainStatus p.2.status with
         | .ok u => pure { domain := p.2.name,
                           is_primary := some (p.2.type == "primary"),
                           status := some u }
         | .error m => .error (.decodeError (.wapi m))),
   st2, reqs)

/-- The decoded `data` dictionary of `dns-rows-list`. -/
structure RowsData where
  row : List RowDict
deriving Repr, DecidableEq

/-- `WAPIDomain.records`: list the rows of this domain; absent data or
an empty `row` list yields `[]`; each row goes through
`__row_dict_to_row`. -/
def records (st : ClientState) (hour : String) (d : WAPIDomainHandle)
    (net : Except TransportError (RespEnvelope RowsData)) :
    Except (WAPIFailure RowsData) (List WAPIDomainRecord) × ClientState ×
      List (WireRequest ReqData) :=
  let (r, st2, reqs) :=
    makeRequest st hour "dns-rows-list" (some [("domain", .s d.domain)]) none net
  ((do
     let resp ← r
     match resp.data with
     | none => pure []
     | some rd =>
       if rd.row.isEmpty then pure []
       else rd.row.mapM fun row =>
         match rowDictToRow row with
         | .ok rec => pure rec
         | .error e => .error (.decodeError e)),
   st2, reqs)

/-- `WAPIDomain.records_as_dict`: `records` with each record rendered
through `recordToDict`. -/
def recordsAsDict (st : ClientState) (hour : String) (d : WAPIDomainHandle)
    (net : Except TransportError (RespEnvelope RowsData)) :
    Except (WAPIFailure RowsData) (List RecordDict) × ClientState ×
      List (WireRequest ReqData) :=
  let (r, st2, reqs) := records st hour d net
  (r.map (List.map recordToDict), st2, reqs)

/-- Default `ttl` of `WAPIDomain.add_record`. -/
def defaultTtl : Int := 1800

/-- `WAPIDomain.add_record(name, record_type, content, ttl)`. -/
def addRecord (st : ClientState) (hour : String) (d : WAPIDomainHandle)
    (name : String) (record_type : WAPIDomainRecordType) (content : String)
    (ttl : Int) (net : Except TransportError (RespEnvelope Unit)) :
    Except (WAPIFailure Unit) Unit × ClientState × List (WireRequest ReqData) :=
  let (r, st2, reqs) :=
    makeRequest st hour "dns-row-add"
      (some [("domain", .s d.domain), ("name", .s name), ("ttl", .n ttl),
             ("type", .s record_type.value), ("rdata", .s content)]) none net
  (r.map fun _ => (), st2, reqs)

/-- `WAPIDomain.remove_record(record)`. -/
def removeRecord (st : ClientState) (hour : String) (d : WAPIDomainHandle)
    (record : WAPIDomainRecord) (net : Except TransportError (RespEnvelope Unit)) :
    Except (WAPIFailure Unit) Unit × ClientState × List (WireRequest ReqData) :=
  let (r, st2, reqs) :=
    makeRequest st hour "dns-row-delete"
      (some [("domain", .s d.domain), ("row_id", .n record.id)]) none net
  (r.map fun _ => (), st2, reqs)

/-- `WAPIDomain.commit()`. -/
def commit (st : ClientState) (hour : String) (d : WAPIDomainHandle)
    (net : Except TransportError (RespEnvelope Unit)) :
    Except (WAPIFailure Unit) Unit × ClientState × List (WireRequest ReqData) :=
  let (r, st2, reqs) :=
    makeRequest st hour "dns-domain-commit" (some [("name", .s d.domain)]) none net
  (r.map fun _ => (), st2, reqs)

/-! ### Helper lemmas -/

/-- The member scan of `__str_to_record_type`, unfolded to a case
split on the uppercased input. -/
theorem strToRecordType_cases (s : String) : strToRecordType s =
    (if pyUpper s = "A" then .ok .A
     else if pyUpper s = "AAAA" then .ok .AAAA
     else if pyUpper s = "MX" then .ok .MX
     else if pyUpper s = "SSHFP" then .ok .SSHFP
     else if pyUpper s = "TXT" then .ok .TXT
     else .error ("Unknown record type " ++ pyUpper s)) := by
  simp only [strToRecordType, recordTypeMembers, List.lookup]
  cases e1 : pyUpper s == "A" with
  | true => simp [e1, beq_iff_eq.mp e1]
  | false =>
  have n1 := beq_eq_false_iff_ne.mp e1
  cases e2 : pyUpper s == "AAAA" with
  | true => simp [e1, e2, n1, beq_iff_eq.mp e2]
  | false =>
  have n2 := beq_eq_false_iff_ne.mp e2
  cases e3 : pyUpper s == "MX" with
  | true => simp [e1, e2, e3, n1, n2, beq_iff_eq.mp e3]
  | false =>
  have n3 := beq_eq_false_iff_ne.mp e3
  cases e4 : pyUpper s == "SSHFP" with
  | true => simp [e1, e2, e3, e4, n1, n2, n3, beq_iff_eq.mp e4]
  | false =>
  have n4 := beq_eq_false_iff_ne.mp e4
  cases e5 : pyUpper s == "TXT" with
  | true => simp [e1, e2, e3, e4, e5, n1, n2, n3, n4, beq_iff_eq.mp e5]
  | false =>
  have n5 := beq_eq_false_iff_ne.mp e5
  simp [e1, e2, e3, e4, e5, n1, n2, n3, n4, n5]

/-- The member scan of `__str_to_domain_status`, unfolded to a case
split on the uppercased input. -/
theorem strToDomainStatus_cases (s : String) : strToDomainStatus s =
    (if pyUpper s = "ACTIVE" then .ok .ACTIVE
     else .error ("Unknown record type " ++ pyUpper s)) := by
  simp only [strToDomainStatus, domainStatusMembers, List.lookup]
  cases e1 : pyUpper s == "ACTIVE" with
  | true => simp [e1, beq_iff_eq.mp e1]
  | false => simp [e1, beq_eq_false_iff_ne.mp e1]

/-! ### Claim theorems -/

/-- C1: `make_request` succeeds (returns a `WAPIResponse`) exactly when
the string form of the response status code starts with `"1"`; on any
other code it raises `WAPIError` carrying the full raw decoded
response. -/
theorem makeRequest_success_iff_code_one {α : Type} (st : ClientState)
    (hour command : String) (data : Option ReqData) (cid : Option String)
    (resp : RespEnvelope α) :
    ((makeRequest st hour command data cid (.ok resp)).1.isOk
        = pyStartsWith (codeStr resp.code) "1")
    ∧ (pyStartsWith (codeStr resp.code) "1" = false →
        (makeRequest st hour command data cid (.ok resp)).1
          = .error (.badResponse resp)) := by
  constructor
  · simp only [makeRequest, makeRequestCore]
    by_cases h : pyStartsWith (codeStr resp.code) "1" = true
    · simp [h, Except.isOk, Except.toBool]
    · simp only [Bool.not_eq_true] at h
      simp [h, Except.isOk, Except.toBool]
  · intro h
    simp [makeRequest, makeRequestCore, h]

/-- C1 witness: a response with code 2999 makes `make_request` raise
`WAPIError` carrying that raw response (and a code of 1000 is accepted,
per the Boolean conjunct of the theorem at this input). -/
theorem makeRequest_success_iff_code_one_witness :
    (makeRequest (α := Unit) (initClient "u" "k") "05" "status" none none
        (.ok ⟨some 2999, "ERR", 11, "t1", "s1", "status", none, none⟩)).1
      = .error (.badResponse ⟨some 2999, "ERR", 11, "t1", "s1", "status", none, none⟩) :=
  (makeRequest_success_iff_code_one (initClient "u" "k") "05" "status" none none
    ⟨some 2999, "ERR", 11, "t1", "s1", "status", none, none⟩).2 (by decide)

set_option maxRecDepth 10000 in
/-- C2: the authentication digest is
`sha1_hex(user ++ sha1_hex(key) ++ hour)` over UTF-8 bytes with
lowercase hex at both steps, and it matches the precomputed
known-answer values of the hash chain for user `"user"`, key `"key"`,
hour `"05"` (reference digests computed with `hashlib.sha1`). -/
theorem getAuth_formula_and_kat :
    (∀ user key hour : String,
        getAuth user key hour = sha1Hex (utf8 (user ++ sha1Hex (utf8 key) ++ hour)))
    ∧ sha1Hex (utf8 "key") = "a62f2225bf70bfaccbc7f1ef2a397836717377de"
    ∧ getAuth "user" "key" "05" = "e55008a35c88bf00210dc4c7922ccfea2bd6ac2e" := by
  refine ⟨fun _ _ _ => rfl, ?_, ?_⟩ <;> decide

/-- C3: the wire envelope's `clTRID` field is always filled with the
command, not with the caller-supplied `command_id`; at
`command = "ping"`, `command_id = some "op-1"` the sent `clTRID` is
`"ping"`, not `"op-1"`. -/
theorem wire_clTRID_is_command :
    (∀ {α : Type} (st : ClientState) (hour command : String)
       (data : Option ReqData) (cid : Option String)
       (net : Except TransportError (RespEnvelope α)),
       (makeRequest st hour command data cid net).2.2.map WireRequest.clTRID
         = [command])
    ∧ ((makeRequest (α := Unit) (initClient "u" "k") "05" "ping" none
          (some "op-1") (.error ⟨"down"⟩)).2.2.map WireRequest.clTRID
          == ["op-1"]) = false :=
  ⟨fun _ _ _ _ _ _ => rfl, rfl⟩

/-- C4: `ping` returns `true` exactly when the response code string
starts with `"1"`, returns `false` exactly when `make_request` raises
`WAPIError`, and re-raises a transport failure unchanged. -/
theorem ping_spec {α : Type} (st : ClientState) (hour : String) :
    (∀ resp : RespEnvelope α,
       (ping st hour (.ok resp)).1 = .ok (pyStartsWith (codeStr resp.code) "1"))
    ∧ (∀ e : TransportError, (ping (α := α) st hour (.error e)).1 = .error e)
    ∧ (∀ resp : RespEnvelope α,
       (ping st hour (.ok resp)).1 = .ok false ↔
         (makeRequest st hour "ping" none none (.ok resp)).1
           = .error (.badResponse resp)) := by
  refine ⟨?_, ?_, ?_⟩
  · intro resp
    simp only [ping, makeRequest, makeRequestCore]
    by_cases h : pyStartsWith (codeStr resp.code) "1" = true
    · simp [h]
    · simp only [Bool.not_eq_true] at h
      simp [h]
  · intro e
    simp [ping, makeRequest]
  · intro resp
    simp only [ping, makeRequest, makeRequestCore]
    by_cases h : pyStartsWith (codeStr resp.code) "1" = true
    · simp [h]
    · simp only [Bool.not_eq_true] at h
      simp [h]

/-- C5: decoding the row dictionary
`{ID:"5", name:"www", ttl:"1800", rdtype:"a", rdata:"1.2.3.4",
changed_date:"2024-01-01 00:00:00", author_comment:""}` yields a record
with id 5, ttl 1800, type A and timestamp 2024-01-01T00:00:00;
re-serializing it reproduces the date string and the type value `"A"`,
and an uppercase `rdtype` input decodes identically. -/
theorem rowDict_roundTrip :
    rowDictToRow ⟨"5", "www", "1800", "a", "1.2.3.4", "2024-01-01 00:00:00", ""⟩
        = .ok ⟨5, "www", 1800, .A, "1.2.3.4", ⟨2024, 1, 1, 0, 0, 0⟩, ""⟩
    ∧ (rowDictToRow ⟨"5", "www", "1800", "a", "1.2.3.4", "2024-01-01 00:00:00", ""⟩).map
          recordToDict
        = .ok ⟨5, "www", 1800, "A", "1.2.3.4", "2024-01-01 00:00:00", ""⟩
    ∧ rowDictToRow ⟨"5", "www", "1800", "A", "1.2.3.4", "2024-01-01 00:00:00", ""⟩
        = rowDictToRow ⟨"5", "www", "1800", "a", "1.2.3.4", "2024-01-01 00:00:00", ""⟩ :=
  ⟨rfl, rfl, rfl⟩

/-- C6: record-type and domain-status decoding match the uppercased
input against the closed enums and fail with `WAPIError` for any
non-member (e.g. `"CNAMEX"`), never defaulting. -/
theorem enum_decode_closed :
    (∀ (s : String) (t : WAPIDomainRecordType),
        strToRecordType s = .ok t ↔ pyUpper s = t.value)
    ∧ (∀ s : String,
        pyUpper s ∉ ["A", "AAAA", "MX", "SSHFP", "TXT"] →
        strToRecordType s = .error ("Unknown record type " ++ pyUpper s))
    ∧ strToRecordType "CNAMEX" = .error "Unknown record type CNAMEX"
    ∧ (∀ (s : String) (u : WAPIDomainStatus),
        strToDomainStatus s = .ok u ↔ pyUpper s = u.value)
    ∧ (∀ s : String, pyUpper s ≠ "ACTIVE" →
        strToDomainStatus s = .error ("Unknown record type " ++ pyUpper s)) := by
  refine ⟨?_, ?_, rfl, ?_, ?_⟩
  · intro s t
    rw [strToRecordType_cases]
    split_ifs with h1 h2 h3 h4 h5 <;> cases t <;>
      simp_all [WAPIDomainRecordType.value]
  · intro s h
    simp only [List.mem_cons, List.not_mem_nil, or_false, not_or] at h
    rw [strToRecordType_cases]
    simp [h.1, h.2.1, h.2.2.1, h.2.2.2.1, h.2.2.2.2]
  · intro s u
    cases u
    rw [strToDomainStatus_cases]
    split_ifs with h <;> simp_all [WAPIDomainStatus.value]
  · intro s h
    rw [strToDomainStatus_cases]
    simp [h]

/-- C6 witness: `"cnamex"` fails record-type decoding and `"deleted"`
fails domain-status decoding, each with the `WAPIError` message. -/
theorem enum_decode_closed_witness :
    strToRecordType "cnamex" = .error ("Unknown record type " ++ pyUpper "cnamex")
    ∧ strToDomainStatus "deleted" = .error ("Unknown record type " ++ pyUpper "deleted") :=
  ⟨enum_decode_closed.2.1 "cnamex" (by decide),
   enum_decode_closed.2.2.2.2 "deleted" (by decide)⟩

/-- C7: on a success response whose data payload is absent, or whose
domain/row collection is empty, `domains` and `records` return the
empty list and no error. -/
theorem listings_empty_data (st : ClientState) (hour : String) :
    (∀ resp : RespEnvelope DomainsData,
       pyStartsWith (codeStr resp.code) "1" = true → resp.data = none →
       (domains st hour (.ok resp)).1 = .ok [])
    ∧ (∀ (resp : RespEnvelope DomainsData) (dd : DomainsData),
       pyStartsWith (codeStr resp.code) "1" = true → resp.data = some dd →
       dd.domain = [] →
       (domains st hour (.ok resp)).1 = .ok [])
    ∧ (∀ (d : WAPIDomainHandle) (resp : RespEnvelope RowsData),
       pyStartsWith (codeStr resp.code) "1" = true → resp.data = none →
       (records st hour d (.ok resp)).1 = .ok [])
    ∧ (∀ (d : WAPIDomainHandle) (resp : RespEnvelope RowsData) (rd : RowsData),
       pyStartsWith (codeStr resp.code) "1" = true → resp.data = some rd →
       rd.row = [] →
       (records st hour d (.ok resp)).1 = .ok []) := by
  refine ⟨?_, ?_, ?_, ?_⟩
  · intro resp hc hd
    simp [domains, makeRequest, makeRequestCore, hc, hd, Bind.bind, Except.bind,
      pure, Except.pure]
  · intro resp dd hc hd hdom
    simp [domains, makeRequest, makeRequestCore, hc, hd, hdom, Bind.bind,
      Except.bind, pure, Except.pure]
  · intro d resp hc hd
    simp [records, makeRequest, makeRequestCore, hc, hd, Bind.bind, Except.bind,
      pure, Except.pure]
  · intro d resp rd hc hd hrow
    simp [records, makeRequest, makeRequestCore, hc, hd, hrow, Bind.bind,
      Except.bind, pure, Except.pure]

/-- C7 witness: concrete success responses with missing data and with
empty `domain`/`row` collections all list to `[]`. -/
theorem listings_empty_data_witness :
    (domains (initClient "u" "k") "05"
        (.ok ⟨some 1000, "OK", 0, "t", "s", "dns-domains-list", none, none⟩)).1 = .ok []
    ∧ (domains (initClient "u" "k") "05"
        (.ok ⟨some 1000, "OK", 0, "t", "s", "dns-domains-list", some ⟨[]⟩, none⟩)).1 = .ok []
    ∧ (records (initClient "u" "k") "05" ⟨"example.com", none, none⟩
        (.ok ⟨some 1000, "OK", 0, "t", "s", "dns-rows-list", none, none⟩)).1 = .ok []
    ∧ (records (initClient "u" "k") "05" ⟨"example.com", none, none⟩
        (.ok ⟨some 1000, "OK", 0, "t", "s", "dns-rows-list", some ⟨[]⟩, none⟩)).1 = .ok [] :=
  ⟨(listings_empty_data (initClient "u" "k") "05").1 _ rfl rfl,
   (listings_empty_data (initClient "u" "k") "05").2.1 _ ⟨[]⟩ rfl rfl rfl,
   (listings_empty_data (initClient "u" "k") "05").2.2.1 _ _ rfl rfl,
   (listings_empty_data (initClient "u" "k") "05").2.2.2 _ _ ⟨[]⟩ rfl rfl rfl⟩

/-- C8: `open_domain` is pure construction: the handle stores the given
name, no request is sent, and the client state is unchanged. -/
theorem openDomain_pure (st : ClientState) (nm : String) :
    openDomain st nm = ({ domain := nm, is_primary := none, status := none }, st, [])
    ∧ domainName (openDomain st nm).1 = nm :=
  ⟨rfl, rfl⟩

/-- C9: a response envelope with no status code field is read as code
string `"3000"`, so `make_request` raises `WAPIError` carrying the raw
response instead of crashing. -/
theorem makeRequest_missing_code {α : Type} (st : ClientState)
    (hour command : String) (data : Option ReqData) (cid : Option String)
    (resp : RespEnvelope α) :
    codeStr none = "3000"
    ∧ (resp.code = none →
        (makeRequest st hour command data cid (.ok resp)).1
          = .error (.badResponse resp)) := by
  refine ⟨rfl, ?_⟩
  intro h
  simp [makeRequest, makeRequestCore, h, codeStr, pyStartsWith, List.isPrefixOf]

/-- C9 witness: a concrete codeless envelope makes `make_request`
raise `WAPIError` with that raw response. -/
theorem makeRequest_missing_code_witness :
    (makeRequest (α := Unit) (initClient "u" "k") "05" "status" none none
        (.ok ⟨none, "ERR", 7, "t2", "s2", "status", none, none⟩)).1
      = .error (.badResponse ⟨none, "ERR", 7, "t2", "s2", "status", none, none⟩) :=
  (makeRequest_missing_code (initClient "u" "k") "05" "status" none none
    ⟨none, "ERR", 7, "t2", "s2", "status", none, none⟩).2 rfl

/-- C10: every operation other than `set_test_mode` returns the client
state unchanged, whether it succeeds or raises; `set_test_mode` changes
only the test-mode flag and the credentials are never changed. -/
theorem client_state_frame (st : ClientState) (hour : String) (b : Bool)
    (command : String) (data : Option ReqData) (cid : Option String)
    (netU : Except TransportError (RespEnvelope Unit))
    (netD : Except TransportError (RespEnvelope DomainsData))
    (netR : Except TransportError (RespEnvelope RowsData))
    (d : WAPIDomainHandle) (nm ct : String) (rt : WAPIDomainRecordType)
    (ttl : Int) (rec : WAPIDomainRecord) :
    (makeRequest st hour command data cid netU).2.1 = st
    ∧ (ping st hour netU).2.1 = st
    ∧ (openDomain st nm).2.1 = st
    ∧ (domains st hour netD).2.1 = st
    ∧ (records st hour d netR).2.1 = st
    ∧ (recordsAsDict st hour d netR).2.1 = st
    ∧ (addRecord st hour d nm rt ct ttl netU).2.1 = st
    ∧ (removeRecord st hour d rec netU).2.1 = st
    ∧ (commit st hour d netU).2.1 = st
    ∧ setTestMode st b = { user := st.user, key := st.key, test_mode := b }
    ∧ (setTestMode st b).user = st.user
    ∧ (setTestMode st b).key = st.key :=
  ⟨rfl, rfl, rfl, rfl, rfl, rfl, rfl, rfl, rfl, rfl, rfl, rfl⟩

end WedosApi
